import Mathlib

/-!
Verification of the MFFNet run controller (`src/main.py`) against its
natural-language specification.  The Python source is shallowly embedded:
pure logic (the best-accuracy tracker, checkpoint-table filtering, the
configuration mutations) becomes Lean functions over `ℚ`, `Nat`, `String`
and association lists; the controller's statement-by-statement control flow
(including Python dynamic errors such as `NameError` and `AttributeError`)
becomes functions returning an action trace together with an
`Outcome` outcome.  The cosine schedule generator lives in
`util/utils.py`, which is not part of the sources; it is modelled from the
specification over `ℝ`.
-/

namespace MFFNet

/-! ## Best-accuracy tracker (src/main.py lines 186-188, 217-225, 246-251) -/

/-- One observation processed by the tracker, from
`if max_accuracy < test_stats["acc1"]: max_accuracy = test_stats["acc1"]`
(lines 217-218; the EMA track at lines 246-247 is the same comparison).
Returns the new running best and whether a "save best" signal fired. -/
def bestStep (best acc : ℚ) : ℚ × Bool :=
  if best < acc then (acc, true) else (best, false)

/-- Folding `bestStep` over a list of evaluation accuracies starting from
running best `best`; returns the final best and one save flag per
observation, in order. -/
def bestRunFrom (best : ℚ) : List ℚ → ℚ × List Bool
  | [] => (best, [])
  | a :: t =>
    let s := bestStep best a
    let r := bestRunFrom s.1 t
    (r.1, s.2 :: r.2)

/-- The tracker as run by the epoch loop: the accumulator is initialized to
`0.0` (line 186 `max_accuracy = 0.0`; line 188 `max_accuracy_ema = 0.0` for
the EMA track, which folds the identical step function). -/
def bestRun (obs : List ℚ) : ℚ × List Bool := bestRunFrom 0 obs

/-- Running maximum of the observations strictly before index `i`, seeded
with the initial accumulator value `b`. -/
def prefixMaxFrom (b : ℚ) (obs : List ℚ) (i : Nat) : ℚ :=
  (obs.take i).foldl max b

/-- Save flags predicted by the amended Best-Model-Tracker claim: a save
fires at index `i` exactly when the observation strictly exceeds the
running best, which is initialized to `0.0`. -/
def amendedFlags (obs : List ℚ) : List Bool :=
  (List.range obs.length).map (fun i => decide (prefixMaxFrom 0 obs i < obs.getD i 0))

/-! ## Run configuration (argparse namespace, fields as used by src/main.py) -/

/-- The run configuration `args`.  `model_key` models
`args.model_key.split('|')`, the ordered list of preferred checkpoint keys
(line 95).  `nb_classes` is the attribute main overwrites at line 47. -/
structure Args where
  eval : Bool
  disable_eval : Bool
  dist_eval : Bool
  model : String
  model_key : List String
  finetune : String
  model_ema : Bool
  model_ema_eval : Bool
  enable_wandb : Bool
  layer_decay : ℚ
  lr : ℚ
  min_lr : ℚ
  epochs : Nat
  start_epoch : Nat
  warmup_epochs : Nat
  warmup_steps : Nat
  weight_decay : ℚ
  weight_decay_end : Option ℚ
  output_dir : String
  save_ckpt : Bool
  save_ckpt_freq : Nat
  batch_size : Nat
  update_freq : Nat
  dataset : String
  tag : String
  nb_classes : Nat
  deriving DecidableEq

/-- Mutations `main` applies to fields of `args`: line 47 overwrites
`args.nb_classes` from the training dataset, line 50 forces
`args.dist_eval = False` when evaluation is disabled, and line 156 replaces
`args.weight_decay_end` by `args.weight_decay` when it is `None`. -/
def mutateArgs (a : Args) (nbClassesFromDataset : Nat) : Args :=
  let a1 := { a with nb_classes := nbClassesFromDataset }
  let a2 := if a1.disable_eval then { a1 with dist_eval := false } else a1
  if a2.weight_decay_end = none then { a2 with weight_decay_end := some a2.weight_decay } else a2

/-- Lines 284 and 289-294 of src/main.py: `args.output_dir` is joined with
`"<dataset>_<tag>"` and then the whole args dict is dumped to `config.txt`.
The snapshot is the args value at that moment, before `main` runs. -/
def snapshotArgs (a : Args) : Args :=
  { a with output_dir := a.output_dir ++ "/" ++ a.dataset ++ "_" ++ a.tag }

/-! ## Checkpoint artifacts (lines 93-106) -/

/-- A tensor, abstracted to its shape and an identifying payload. -/
structure Tensor where
  shape : List Nat
  payload : ℚ
  deriving DecidableEq

/-- A state-dict: an ordered association of parameter names to tensors. -/
abbrev Table := List (String × Tensor)

/-- A value stored at a top-level key of a loaded checkpoint dict: either a
raw tensor (when the artifact itself is a state-dict) or a nested
state-dict (when the artifact wraps it under a key such as `"model"`). -/
inductive CkptVal
  | tensor (t : Tensor)
  | table (m : Table)
  deriving DecidableEq

/-- A loaded checkpoint artifact: a Python dict at top level. -/
abbrev Ckpt := List (String × CkptVal)

/-- Dictionary lookup (first binding wins, as in a Python dict). -/
def lookupKey (k : String) : List (String × α) → Option α
  | [] => none
  | p :: t => if p.1 = k then some p.2 else lookupKey k t

/-- Lines 94-101: try each key of `model_key.split('|')` in order; the
first key present in the checkpoint selects the nested table (a break
leaves the loop); when none is present the whole artifact is treated as
the state-dict (`checkpoint_model = checkpoint`), whose entries are the
top-level tensor-valued keys. -/
def findCheckpointModel (modelKeys : List String) (ckpt : Ckpt) : Table :=
  match modelKeys.find? (fun k => (lookupKey k ckpt).isSome) with
  | some k =>
    match lookupKey k ckpt with
    | some (.table m) => m
    | some (.tensor _) => []
    | none => []
  | none => ckpt.filterMap (fun p => match p.2 with
      | .tensor t => some (p.1, t)
      | .table _ => none)

/-- The two classifier-head keys probed at line 103. -/
def headKeys : List String := ["head.weight", "head.bias"]

/-- Remove the binding of key `k` from a table (`del checkpoint_model[k]`). -/
def eraseKey (k : String) : Table → Table
  | [] => []
  | p :: t => if p.1 = k then eraseKey k t else p :: eraseKey k t

/-- One step of line 103-105 for a single head key `k`: delete the entry
from the accumulated checkpoint table when it is present and its shape
differs from the shape in the current model's state-dict.  (When the head
key is absent from the current model's state-dict Python would raise
`KeyError`; the convnext model always carries both head keys.) -/
def stripHeadKey (state_dict acc : Table) (k : String) : Table :=
  match lookupKey k acc, lookupKey k state_dict with
  | some t, some s => if t.shape ≠ s.shape then eraseKey k acc else acc
  | _, _ => acc

/-- Lines 102-105: the head-stripping loop over `['head.weight', 'head.bias']`. -/
def stripHead (state_dict : Table) (cm : Table) : Table :=
  headKeys.foldl (stripHeadKey state_dict) cm

/-- The fatal condition of spec sections 4.3 and 7: the foreign weight load
hits a strict-shape mismatch on a surviving (non-head) key. -/
inductive LoadErr
  | incompatibleCheckpoint
  deriving DecidableEq

/-- Result of applying a weight table to the model: the new state-dict, or
the fatal `IncompatibleCheckpoint` condition. -/
inductive LoadResult
  | ok (t : Table)
  | err (e : LoadErr)
  deriving DecidableEq

/-- Modelled from the spec: the transfer step of `utils.load_state_dict`
(util/utils.py, absent from src/) — each model parameter named `k` takes
the checkpoint value at key `pfx ++ k` when one exists and otherwise keeps
its current (initialized) value (missing and extra keys are tolerated by
design). -/
def applyWeights (pfx : String) (state_dict cm : Table) : Table :=
  state_dict.map (fun p =>
    match lookupKey (pfx ++ p.1) cm with
    | some t => (p.1, t)
    | none => p)

/-- Modelled from the spec: `utils.load_state_dict` (util/utils.py, absent
from src/) applies the checkpoint weights to the model under a configurable
name prefix, tolerating missing and extra keys by design, but a
strict-shape mismatch on any surviving matching key — after line 102-105
stripping these can only be non-head keys — is a hard failure,
`IncompatibleCheckpoint` (spec sections 4.3 and 7). -/
def load_state_dict (pfx : String) (state_dict cm : Table) : LoadResult :=
  if state_dict.all (fun p =>
      match lookupKey (pfx ++ p.1) cm with
      | some t => decide (t.shape = p.2.shape)
      | none => true) then
    .ok (applyWeights pfx state_dict cm)
  else
    .err .incompatibleCheckpoint

/-- Lines 93-106 composed: select the nested table, strip mismatched head
entries, and apply the remainder to the current model's state-dict. -/
def loadForeignWeights (modelKeys : List String) (pfx : String)
    (state_dict : Table) (ckpt : Ckpt) : LoadResult :=
  load_state_dict pfx state_dict (stripHead state_dict (findCheckpointModel modelKeys ckpt))

/-! ## Control-flow model of `main` -/

/-- Checkpoint tags produced by `utils.save_model` calls (lines 208, 225, 251). -/
inductive Tag
  | epoch (n : Nat)
  | best
  | bestEma
  deriving DecidableEq

/-- Which model an `evaluate` call runs on (lines 214, 242). -/
inductive EvalTarget
  | primary
  | ema
  deriving DecidableEq

/-- The per-epoch record appended to `record.txt` (lines 235-238, 255,
256-259, 264-265), abstracted to which metric groups it contains. -/
structure LogEntry where
  hasTrain : Bool
  hasTest : Bool
  hasTestEma : Bool
  epoch : Nat
  nParams : Nat
  deriving DecidableEq

/-- Externally visible steps of `main`, in program order. -/
inductive Action
  | createLogger
  | buildDatasetTrain
  | buildDatasetVal
  | buildModel
  | loadFinetune
  | loggerInfo (msg : String)
  | constructValueError (msg : String)
  | loadStateDict
  | modelToDevice
  | createModelEma
  | createAssigner
  | createOptimizer
  | genLrSchedule
  | genWdSchedule
  | autoLoadModel
  | loadEvalCkpt (path : String)
  | evaluate (t : EvalTarget)
  | reportAccuracy
  | train (e : Nat)
  | saveCkpt (t : Tag)
  | appendLog (entry : LogEntry)
  deriving DecidableEq

/-- Python dynamic errors raised by statements of `main`. -/
inductive PyErr
  | attributeErrorNone (attr : String)
  | nameError (n : String)
  | typeErrorNoneLen
  deriving DecidableEq

/-- Whether a sequence of statements ran to completion or raised. -/
inductive Outcome
  | ok
  | err (e : PyErr)
  deriving DecidableEq

/-- Is this action a checkpoint write? -/
def Action.isSave : Action → Bool
  | .saveCkpt _ => true
  | _ => false

/-- Is this action an append to the run log? -/
def Action.isAppendLog : Action → Bool
  | .appendLog _ => true
  | _ => false

/-- Is this action an `evaluate` call? -/
def Action.isEvaluate : Action → Bool
  | .evaluate _ => true
  | _ => false

/-- Is this action the eval-branch checkpoint load of line 176? -/
def Action.isLoadEvalCkpt : Action → Bool
  | .loadEvalCkpt _ => true
  | _ => false

/-- Is this action a training pass? -/
def Action.isTrain : Action → Bool
  | .train _ => true
  | _ => false

/-- Environment supplied by external collaborators. -/
structure Env where
  finetuneCkpt : Ckpt
  nbClasses : Nat
  datasetTrainLen : Nat
  deriving DecidableEq

/-- The model names accepted by the layer-decay branch (line 131). -/
def convnextModels : List String :=
  ["convnext_small", "convnext_base", "convnext_large", "convnext_xlarge"]

/-- Lines 49-53: `dataset_val` is `None` exactly when evaluation is
disabled during training. -/
def datasetValIsNone (a : Args) : Bool := a.disable_eval

/-- Lines 66-69: a `DataLoader` over `dataset_val` is constructed
unconditionally, so `data_loader_val` is never `None` — even when
`dataset_val` is `None` the loader object simply wraps it. -/
structure ValLoader where
  datasetIsNone : Bool
  deriving DecidableEq

/-- The `data_loader_val` object as seen by the line-213 guard. -/
def dataLoaderVal (a : Args) : Option ValLoader := some ⟨datasetValIsNone a⟩

/-- Lines 102-160 of `main`, after the finetune checkpoint has selected a
nested table: head stripping and weight loading (102-106), `model.to`
(110), optional EMA construction with its `logger.info` (113-120), the
layer-decay assigner binding (129-133) — `assigner` stays unbound when the
decay rate is exactly 1.0 —, optimizer construction referencing `assigner`
(142-145), the unconditional `logger.info` at line 149 (an
`AttributeError` when `logger` is `None`, i.e. in eval mode), schedule
generation (150-158), and the criterion dispatch at line 160, which reads
the never-assigned name `mixup_fn` (its assignment is commented out) and
therefore raises `NameError`. -/
def mainPreludeAfterModel (a : Args) (t : List Action) : List Action × Outcome :=
  let t1 := t ++ [.loadStateDict, .modelToDevice]
  if a.model_ema ∧ a.eval then
    (t1 ++ [.createModelEma], .err (.attributeErrorNone "info"))
  else
    let t2 := if a.model_ema then t1 ++ [.createModelEma, .loggerInfo "Using EMA"] else t1
    if (a.layer_decay < 1 ∨ 1 < a.layer_decay) ∧ a.model ∈ convnextModels then
      let t3 := t2 ++ [.createAssigner, .createOptimizer]
      if a.eval then
        (t3, .err (.attributeErrorNone "info"))
      else
        let t4 := t3 ++ [.loggerInfo "Use Cosine LR scheduler", .genLrSchedule, .genWdSchedule]
        (t4, .err (.nameError "mixup_fn"))
    else
      (t2, .err (.nameError "assigner"))

/-- Lines 36-110 of `main`: logger creation only when not in eval mode
(36-39), dataset construction (47-53), model construction and finetune
loading for `convnext_base` (82-106) — with the `logger.info` of line 98
raising `AttributeError` in eval mode when a preferred key matches — and,
for any other model identifier, line 108 which merely constructs a
`ValueError` without raising it, so control falls through to line 110 where
the unbound global `model` raises `NameError`. -/
def mainPrelude (a : Args) (env : Env) : List Action × Outcome :=
  let t0 : List Action := if a.eval then [] else [.createLogger]
  let t1 := t0 ++ [.buildDatasetTrain]
  let t2 := if a.disable_eval then t1 else t1 ++ [.buildDatasetVal]
  if a.model = "convnext_base" then
    let t3 := t2 ++ [.buildModel, .loadFinetune]
    match a.model_key.find? (fun k => (lookupKey k env.finetuneCkpt).isSome) with
    | some k =>
      if a.eval then
        (t3, .err (.attributeErrorNone "info"))
      else
        mainPreludeAfterModel a (t3 ++ [.loggerInfo ("Load state_dict by model_key = " ++ k)])
    | none => mainPreludeAfterModel a t3
  else
    (t2 ++ [.constructValueError ("Unsupported model: " ++ a.model)], .err (.nameError "model"))

/-! ## One iteration of the training loop (lines 191-268) -/

/-- Result of running one epoch body. -/
structure EpochResult where
  trace : List Action
  outcome : Outcome
  maxAcc : ℚ
  maxAccEma : ℚ
  deriving DecidableEq

/-- Python truthiness of `args.output_dir and args.save_ckpt` (lines 206, 222, 248). -/
def saveEnabled (a : Args) : Bool := (a.output_dir != "") && a.save_ckpt

/-- The epoch-tagged checkpoint cadence of lines 207. -/
def cadenceDue (a : Args) (e : Nat) : Prop :=
  (e + 1) % a.save_ckpt_freq = 0 ∨ e + 1 = a.epochs

instance (a : Args) (e : Nat) : Decidable (cadenceDue a e) := by
  unfold cadenceDue; infer_instance

/-- Lines 213-268: the evaluation and logging section of one epoch.  The
guard at line 213 tests `data_loader_val`, which is never `None`; when the
wrapped `dataset_val` is `None` (evaluation disabled) iterating it raises
`TypeError`.  Otherwise the primary model is evaluated, the best tracker
is updated (217-225) — note line 220 touches the never-imported name
`wandb` when a wandb logger is active —, the EMA model is optionally
evaluated with its own tracker (241-255), and a log entry is appended when
an output directory is configured (261-265). -/
def evalLogSection (a : Args) (e nParams : Nat) (acc accEma maxAcc maxAccEma : ℚ) :
    EpochResult :=
  if (dataLoaderVal a).isSome then
    if datasetValIsNone a then
      { trace := [.evaluate .primary], outcome := .err .typeErrorNoneLen,
        maxAcc := maxAcc, maxAccEma := maxAccEma }
    else
      let maxAcc1 := if maxAcc < acc then acc else maxAcc
      if maxAcc < acc ∧ a.enable_wandb then
        { trace := [.evaluate .primary], outcome := .err (.nameError "wandb"),
          maxAcc := maxAcc1, maxAccEma := maxAccEma }
      else
        let t1 : List Action :=
          if maxAcc < acc ∧ saveEnabled a then [.evaluate .primary, .saveCkpt .best]
          else [.evaluate .primary]
        let t2 := if a.model_ema ∧ a.model_ema_eval then t1 ++ [.evaluate .ema] else t1
        let maxAccEma1 :=
          if a.model_ema ∧ a.model_ema_eval ∧ maxAccEma < accEma then accEma else maxAccEma
        let t3 :=
          if a.model_ema ∧ a.model_ema_eval ∧ maxAccEma < accEma ∧ saveEnabled a then
            t2 ++ [.saveCkpt .bestEma]
          else t2
        let entry : LogEntry :=
          { hasTrain := true, hasTest := true, hasTestEma := a.model_ema && a.model_ema_eval,
            epoch := e, nParams := nParams }
        let t4 := if a.output_dir ≠ "" then t3 ++ [.appendLog entry] else t3
        { trace := t4, outcome := .ok, maxAcc := maxAcc1, maxAccEma := maxAccEma1 }
  else
    let entry : LogEntry :=
      { hasTrain := true, hasTest := false, hasTestEma := false, epoch := e, nParams := nParams }
    let t4 : List Action := if a.output_dir ≠ "" then [.appendLog entry] else []
    { trace := t4, outcome := .ok, maxAcc := maxAcc, maxAccEma := maxAccEma }

/-- One full iteration of the epoch loop (lines 191-268): the training pass
(197-204), the epoch-tagged checkpoint save when enabled and due
(206-210), then evaluation and logging (213-268). -/
def epochBody (a : Args) (e nParams : Nat) (acc accEma maxAcc maxAccEma : ℚ) : EpochResult :=
  let s := evalLogSection a e nParams acc accEma maxAcc maxAccEma
  { s with trace :=
      [Action.train e]
      ++ (if saveEnabled a ∧ cadenceDue a e then [Action.saveCkpt (.epoch e)] else [])
      ++ s.trace }

/-! ## Schedule generator

Modelled from the spec: `utils.cosine_scheduler` lives in `util/utils.py`,
which is not among the sources; §4.1 of the specification defines it as a
linear ramp from `0` to `base_value` over
`max(warmup_epochs × steps_per_epoch, warmup_steps)` steps followed by a
half-cosine decay from `base_value` down to `end_value` over the remaining
steps, truncated to `total_epochs × steps_per_epoch` entries. -/

/-- Number of warmup steps: `max(warmup_epochs × steps_per_epoch, warmup_steps)`. -/
def warmupLen (steps we ws : Nat) : Nat := max (we * steps) ws

/-- Modelled from the spec: the linear warmup ramp from `0` to `base` over
`W` steps (`numpy.linspace`-style, endpoint included; a single-point ramp
is just `[0]`). -/
noncomputable def warmupVal (base : ℝ) (W i : Nat) : ℝ :=
  if W ≤ 1 then 0 else base * i / ((W : ℝ) - 1)

/-- Modelled from the spec: the half-cosine decay from `base` to `endv`
over `M` steps, at step `j`. -/
noncomputable def cosineVal (base endv : ℝ) (M j : Nat) : ℝ :=
  endv + (base - endv) * (1 + Real.cos (Real.pi * j / M)) / 2

/-- Modelled from the spec: the value of the schedule at global step `i`. -/
noncomputable def schedVal (base endv : ℝ) (epochs steps we ws : Nat) (i : Nat) : ℝ :=
  let W := warmupLen steps we ws
  if i < W then warmupVal base W i
  else cosineVal base endv (epochs * steps - W) (i - W)

/-- Modelled from the spec: the full eagerly generated schedule, one entry
per optimizer step across the entire run. -/
noncomputable def cosine_scheduler (base endv : ℝ) (epochs steps we ws : Nat) : List ℝ :=
  List.ofFn (fun i : Fin (epochs * steps) => schedVal base endv epochs steps we ws i)

/-! ## Concrete runs used by the closed theorems -/

/-- A baseline training-mode configuration. -/
def baseArgs : Args where
  eval := false
  disable_eval := false
  dist_eval := true
  model := "convnext_base"
  model_key := ["model", "module"]
  finetune := "convnext_base_22k.pth"
  model_ema := false
  model_ema_eval := false
  enable_wandb := false
  layer_decay := 2
  lr := 1
  min_lr := 0
  epochs := 10
  start_epoch := 0
  warmup_epochs := 1
  warmup_steps := 0
  weight_decay := 1
  weight_decay_end := none
  output_dir := "results"
  save_ckpt := true
  save_ckpt_freq := 5
  batch_size := 16
  update_freq := 1
  dataset := "cub"
  tag := "run1"
  nb_classes := 1000

/-- A finetune checkpoint whose top level is itself a state-dict (no
`"model"`/`"module"` wrapper key). -/
def envPlain : Env where
  finetuneCkpt := [("stem.weight", .tensor ⟨[4, 3], 1⟩), ("head.weight", .tensor ⟨[1000, 4], 2⟩)]
  nbClasses := 200
  datasetTrainLen := 5994

/-- Eval-only run: `args.eval = True`. -/
def argsEvalMode : Args := { baseArgs with eval := true }

/-- Run with layer decay exactly `1.0`. -/
def argsDecayOne : Args := { baseArgs with layer_decay := 1 }

/-- Run with an unsupported model identifier. -/
def argsBadModel : Args := { baseArgs with model := "resnet50" }

/-- Run with evaluation disabled during training. -/
def argsNoEval : Args := { baseArgs with disable_eval := true }

/-- Run with checkpoint saving turned off. -/
def argsNoSave : Args := { baseArgs with save_ckpt := false }

/-- Run with an explicit final weight decay and evaluation enabled. -/
def argsWdEnd : Args := { baseArgs with weight_decay_end := some 3, disable_eval := false }

/-- The current model's state-dict in the §8 foreign-checkpoint scenario:
its classifier head has 200 classes. -/
def sdScenario : Table :=
  [("head.bias", ⟨[200], 10⟩), ("blocks.0.weight", ⟨[7], 11⟩)]

/-- A foreign checkpoint whose head has 1000 classes, nested under the
preferred key `"model"`. -/
def ckptScenario : Ckpt :=
  [("model", .table [("head.bias", ⟨[1000], 20⟩), ("blocks.0.weight", ⟨[7], 21⟩)])]

/-- The state-dict the §8 scenario load must produce: the initialized
200-class head kept, the backbone weight transferred. -/
def outScenario : Table :=
  [("head.bias", ⟨[200], 10⟩), ("blocks.0.weight", ⟨[7], 21⟩)]

/-- A weight table whose backbone entry has an incompatible shape. -/
def cmBadShape : Table := [("blocks.0.weight", ⟨[9], 21⟩)]

/-! # Theorems -/

/-! ## Tracker lemmas -/

theorem bestStep_fst (b a : ℚ) : (bestStep b a).1 = max b a := by
  unfold bestStep
  rcases lt_or_ge b a with h | h
  · simp [h, max_eq_right h.le]
  · simp [not_lt.2 h, max_eq_left h]

theorem bestStep_snd (b a : ℚ) : (bestStep b a).2 = decide (b < a) := by
  unfold bestStep
  rcases lt_or_ge b a with h | h
  · simp [h]
  · simp [not_lt.2 h, not_lt_of_ge h]

theorem bestRunFrom_fst (obs : List ℚ) : ∀ b : ℚ, (bestRunFrom b obs).1 = obs.foldl max b := by
  induction obs with
  | nil => intro b; rfl
  | cons a t ih =>
    intro b
    show ((bestRunFrom (bestStep b a).1 t).1) = (a :: t).foldl max b
    rw [ih, bestStep_fst]
    rfl

theorem bestRunFrom_snd (obs : List ℚ) :
    ∀ b : ℚ, (bestRunFrom b obs).2 =
      (List.range obs.length).map (fun i => decide (prefixMaxFrom b obs i < obs.getD i 0)) := by
  induction obs with
  | nil => intro b; rfl
  | cons a t ih =>
    intro b
    show (bestStep b a).2 :: (bestRunFrom (bestStep b a).1 t).2 = _
    rw [ih, bestStep_fst, bestStep_snd]
    rw [List.length_cons, List.range_succ_eq_map, List.map_cons, List.map_map]
    have hhead : decide (b < a) = decide (prefixMaxFrom b (a :: t) 0 < (a :: t).getD 0 0) := by
      simp [prefixMaxFrom]
    rw [hhead]
    have htail : ∀ i ∈ List.range t.length,
        decide (prefixMaxFrom (max b a) t i < t.getD i 0) =
        ((fun i => decide (prefixMaxFrom b (a :: t) i < (a :: t).getD i 0)) ∘ Nat.succ) i := by
      intro i _
      simp only [Function.comp, prefixMaxFrom, List.take_succ_cons, List.foldl_cons,
        List.getD_cons_succ]
    rw [List.map_congr_left htail]

theorem le_prefixMaxFrom (b : ℚ) (obs : List ℚ) (i : Nat) : b ≤ prefixMaxFrom b obs i := by
  unfold prefixMaxFrom
  generalize obs.take i = l
  induction l generalizing b with
  | nil => exact le_refl b
  | cons a t ih => exact le_trans (le_max_left b a) (ih (max b a))

/-! ## C1 — Best-Model Tracker -/

/-- C1 counterexample: for the observation sequence `[-1]` the tracked best
after processing is `0.0` — the initial accumulator — and not the maximum
observed value `-1`; moreover no "save best" signal fires although the
first observation is trivially a strict new maximum of the observed
sequence. -/
theorem bestRun_counterexample :
    (bestRun [-1]).1 = 0 ∧ (bestRun [-1]).1 ≠ -1 ∧ (bestRun [-1]).2 = [false] := by
  decide

/-- C1 (amended): for every observation sequence the tracked best after
processing equals the maximum of `0.0` (the initial accumulator) and all
observed values, and a "save best" signal fires exactly when an observation
strictly exceeds the running best initialized to `0.0`; in particular the
sequence `{70.0, 65.0, 72.0}` yields exactly two save signals (after the
1st and 3rd observations) and a final best of `72.0`. -/
theorem bestRun_clamped_max_and_flags :
    (∀ obs : List ℚ, (bestRun obs).1 = obs.foldl max 0 ∧ (bestRun obs).2 = amendedFlags obs)
    ∧ bestRun [70, 65, 72] = (72, [true, false, true]) := by
  refine ⟨fun obs => ⟨bestRunFrom_fst obs 0, ?_⟩, by decide⟩
  rw [bestRun, bestRunFrom_snd]
  rfl

/-! ## C10 — non-negative accumulators -/

/-- C10: both best-accuracy accumulators are initialized to `0.0` (lines
186 and 188) and fold the same step, so along any pair of primary/EMA
accuracy sequences every intermediate running best is bounded below by
`0.0`, and an observation `≤ 0.0` never fires a save signal on its track —
even as the first (hence maximal) observation. -/
theorem bestRun_nonneg_and_no_save :
    ∀ obsP obsE : List ℚ,
      ((∀ i : Nat, 0 ≤ (bestRunFrom 0 (obsP.take i)).1)
        ∧ ∀ i : Nat, i < obsP.length → obsP.getD i 0 ≤ 0 →
            (bestRun obsP).2.getD i false = false)
      ∧ ((∀ i : Nat, 0 ≤ (bestRunFrom 0 (obsE.take i)).1)
        ∧ ∀ i : Nat, i < obsE.length → obsE.getD i 0 ≤ 0 →
            (bestRun obsE).2.getD i false = false) := by
  have key : ∀ obs : List ℚ,
      (∀ i : Nat, 0 ≤ (bestRunFrom 0 (obs.take i)).1)
      ∧ ∀ i : Nat, i < obs.length → obs.getD i 0 ≤ 0 →
          (bestRun obs).2.getD i false = false := by
    intro obs
    constructor
    · intro i
      rw [bestRunFrom_fst]
      exact le_prefixMaxFrom 0 obs i
    · intro i hi hle
      rw [bestRun, bestRunFrom_snd]
      rw [List.getD_eq_getElem?_getD, List.getElem?_map, List.getElem?_range hi]
      simp only [Option.map_some', Option.getD_some, decide_eq_false_iff_not, not_lt]
      exact hle.trans (le_prefixMaxFrom 0 obs i)
  exact fun obsP obsE => ⟨key obsP, key obsE⟩

/-- Witness for C10 at the concrete sequences `[0.0]` and `[-3.0, 5.0]`. -/
theorem bestRun_nonneg_and_no_save_witness :
    ((0 : Nat) < ([(0 : ℚ)]).length ∧ ([(0 : ℚ)]).getD 0 0 ≤ 0
      ∧ (bestRun [(0 : ℚ)]).2.getD 0 false = false)
    ∧ ((0 : Nat) < ([(-3 : ℚ), 5]).length ∧ ([(-3 : ℚ), 5]).getD 0 0 ≤ 0
      ∧ (bestRun [(-3 : ℚ), 5]).2.getD 0 false = false) :=
  ⟨⟨by decide, by decide,
    (bestRun_nonneg_and_no_save [(0 : ℚ)] [(-3 : ℚ), 5]).1.2 0 (by decide) (by decide)⟩,
   ⟨by decide, by decide,
    (bestRun_nonneg_and_no_save [(0 : ℚ)] [(-3 : ℚ), 5]).2.2 0 (by decide) (by decide)⟩⟩

/-! ## C6 — configuration snapshot vs. mutation -/

/-- C6 counterexample: with `weight_decay_end = None` in the snapshotted
configuration (as in `baseArgs`), line 156 of `main` overwrites the field
with `weight_decay`, so the weight-decay schedule is generated from
`some 1` while the persisted snapshot records `none` — the snapshot does
not agree with every configuration value the controller subsequently
uses. -/
theorem mutateArgs_counterexample :
    (mutateArgs (snapshotArgs baseArgs) 200).weight_decay_end = some 1
    ∧ (snapshotArgs baseArgs).weight_decay_end = none := by
  decide

/-- C6 (amended): the configuration is snapshotted once, before `main`
runs; `main` then mutates exactly three fields — `nb_classes` (overwritten
from the dataset), `dist_eval` (forced to `False` when evaluation is
disabled) and `weight_decay_end` (replaced by `weight_decay` when `None`) —
and the snapshot agrees with every other configuration value the
controller subsequently uses. -/
theorem mutateArgs_only_three_fields (a : Args) (n : Nat) :
    (a.disable_eval = false → (mutateArgs a n).dist_eval = a.dist_eval)
    ∧ (∀ w : ℚ, a.weight_decay_end = some w → (mutateArgs a n).weight_decay_end = some w)
    ∧ (mutateArgs a n).nb_classes = n
    ∧ (mutateArgs a n).eval = a.eval
    ∧ (mutateArgs a n).disable_eval = a.disable_eval
    ∧ (mutateArgs a n).model = a.model
    ∧ (mutateArgs a n).model_key = a.model_key
    ∧ (mutateArgs a n).finetune = a.finetune
    ∧ (mutateArgs a n).model_ema = a.model_ema
    ∧ (mutateArgs a n).model_ema_eval = a.model_ema_eval
    ∧ (mutateArgs a n).enable_wandb = a.enable_wandb
    ∧ (mutateArgs a n).layer_decay = a.layer_decay
    ∧ (mutateArgs a n).lr = a.lr
    ∧ (mutateArgs a n).min_lr = a.min_lr
    ∧ (mutateArgs a n).epochs = a.epochs
    ∧ (mutateArgs a n).start_epoch = a.start_epoch
    ∧ (mutateArgs a n).warmup_epochs = a.warmup_epochs
    ∧ (mutateArgs a n).warmup_steps = a.warmup_steps
    ∧ (mutateArgs a n).weight_decay = a.weight_decay
    ∧ (mutateArgs a n).output_dir = a.output_dir
    ∧ (mutateArgs a n).save_ckpt = a.save_ckpt
    ∧ (mutateArgs a n).save_ckpt_freq = a.save_ckpt_freq
    ∧ (mutateArgs a n).batch_size = a.batch_size
    ∧ (mutateArgs a n).update_freq = a.update_freq
    ∧ (mutateArgs a n).dataset = a.dataset
    ∧ (mutateArgs a n).tag = a.tag := by
  simp only [mutateArgs]
  split_ifs <;> simp_all

/-- Witness for C6 at `argsWdEnd`, whose `weight_decay_end` is `some 3` and
whose `disable_eval` is `false`. -/
theorem mutateArgs_only_three_fields_witness :
    argsWdEnd.disable_eval = false
    ∧ (mutateArgs argsWdEnd 200).dist_eval = argsWdEnd.dist_eval
    ∧ argsWdEnd.weight_decay_end = some 3
    ∧ (mutateArgs argsWdEnd 200).weight_decay_end = some 3 :=
  ⟨by decide, (mutateArgs_only_three_fields argsWdEnd 200).1 (by decide), by decide,
   (mutateArgs_only_three_fields argsWdEnd 200).2.1 3 (by decide)⟩

/-! ## C2 — evaluation-only mode -/

/-- C2: with `args.eval = True` the run sets `logger = None` (lines 36-39)
and then crashes with `AttributeError` at the unconditional
`logger.info` of line 149 — after the optimizer has already been
constructed (line 142) and before the eval branch of lines 174-183 is ever
reached: the schedule is not generated, the dataset-named checkpoint is
never loaded, no accuracy is evaluated or reported, and no checkpoint is
written. -/
theorem mainPrelude_eval_mode_crashes :
    (mainPrelude argsEvalMode envPlain).2 = .err (.attributeErrorNone "info")
    ∧ Action.createOptimizer ∈ (mainPrelude argsEvalMode envPlain).1
    ∧ Action.genLrSchedule ∉ (mainPrelude argsEvalMode envPlain).1
    ∧ Action.reportAccuracy ∉ (mainPrelude argsEvalMode envPlain).1
    ∧ ((mainPrelude argsEvalMode envPlain).1.filter Action.isLoadEvalCkpt) = []
    ∧ ((mainPrelude argsEvalMode envPlain).1.filter Action.isEvaluate) = []
    ∧ ((mainPrelude argsEvalMode envPlain).1.filter Action.isSave) = []
    ∧ ((mainPrelude argsEvalMode envPlain).1.filter Action.isTrain) = [] := by
  decide

/-! ## C3 — layer decay exactly 1.0 -/

/-- C3: with `args.layer_decay = 1.0` the branch at lines 129-133 never
binds the name `assigner`, so the optimizer construction of lines 142-145
raises `NameError` instead of succeeding with a single flat-scale group —
the no-assigner path is an error path in the code. -/
theorem mainPrelude_layer_decay_one_name_error :
    (mainPrelude argsDecayOne envPlain).2 = .err (.nameError "assigner")
    ∧ Action.createOptimizer ∉ (mainPrelude argsDecayOne envPlain).1
    ∧ Action.createAssigner ∉ (mainPrelude argsDecayOne envPlain).1 := by
  decide

/-! ## C5 — unsupported model identifier -/

/-- C5: with an unsupported model identifier, line 108 merely evaluates
`ValueError("Unsupported model: ...")` without raising it; execution falls
through and dies at line 110 with a `NameError` on the unbound global
`model`.  No model is constructed and no checkpoint written, but no
configuration error is raised either. -/
theorem mainPrelude_unsupported_model_name_error :
    (mainPrelude argsBadModel envPlain).2 = .err (.nameError "model")
    ∧ Action.constructValueError "Unsupported model: resnet50"
        ∈ (mainPrelude argsBadModel envPlain).1
    ∧ Action.buildModel ∉ (mainPrelude argsBadModel envPlain).1
    ∧ ((mainPrelude argsBadModel envPlain).1.filter Action.isSave) = [] := by
  decide

/-! ## C7 — checkpoint cadence -/

theorem saveEpoch_not_mem_evalLogSection (a : Args) (e nParams : Nat)
    (acc accEma maxAcc maxAccEma : ℚ) (n : Nat) :
    Action.saveCkpt (.epoch n) ∉ (evalLogSection a e nParams acc accEma maxAcc maxAccEma).trace := by
  simp only [evalLogSection]
  split_ifs <;> simp_all

/-- C7 (amended): when checkpoint writing is enabled — a non-empty output
directory and `save_ckpt` set, the guard of line 206 that the claim
omits — an epoch-tagged checkpoint is persisted if and only if
`(e+1) mod save_freq == 0` or `e+1` equals the total epoch count, and that
save happens directly after the epoch's training pass and before its
evaluation. -/
theorem epochBody_save_iff_cadence (a : Args) (e nParams : Nat)
    (acc accEma maxAcc maxAccEma : ℚ)
    (hOut : a.output_dir ≠ "") (hSave : a.save_ckpt = true) :
    (Action.saveCkpt (.epoch e) ∈ (epochBody a e nParams acc accEma maxAcc maxAccEma).trace
      ↔ cadenceDue a e)
    ∧ (cadenceDue a e →
        (epochBody a e nParams acc accEma maxAcc maxAccEma).trace.take 2
          = [Action.train e, Action.saveCkpt (.epoch e)])
    ∧ (epochBody a e nParams acc accEma maxAcc maxAccEma).trace.head?
        = some (Action.train e) := by
  have hnm := saveEpoch_not_mem_evalLogSection a e nParams acc accEma maxAcc maxAccEma e
  have hse : saveEnabled a = true := by
    simp [saveEnabled, hSave, bne_iff_ne]
    exact hOut
  by_cases hc : cadenceDue a e
  · refine ⟨?_, ?_, ?_⟩ <;> simp [epochBody, hse, hc]
  · refine ⟨?_, fun h => absurd h hc, ?_⟩ <;> simp [epochBody, hse, hc, hnm]

/-- C7 counterexample: with checkpoint saving disabled (`save_ckpt=False`,
line 206) the cadence is due at epoch 4 (`(4+1) mod 5 == 0`) and yet no
epoch-tagged checkpoint is persisted, so the claim's "persists iff
cadence-due or final epoch" fails as stated. -/
theorem epochBody_no_save_counterexample :
    cadenceDue argsNoSave 4
    ∧ Action.saveCkpt (.epoch 4) ∉ (epochBody argsNoSave 4 100 70 0 0 0).trace := by
  decide

/-- Witness for C7 at `baseArgs`, epoch 4 of 10 with save frequency 5. -/
theorem epochBody_save_iff_cadence_witness :
    baseArgs.output_dir ≠ "" ∧ baseArgs.save_ckpt = true
    ∧ (Action.saveCkpt (.epoch 4) ∈ (epochBody baseArgs 4 100 70 0 0 0).trace
        ↔ cadenceDue baseArgs 4)
    ∧ (epochBody baseArgs 4 100 70 0 0 0).trace.take 2
        = [Action.train 4, Action.saveCkpt (.epoch 4)]
    ∧ (epochBody baseArgs 4 100 70 0 0 0).trace.head? = some (Action.train 4) :=
  ⟨by decide, by decide,
   (epochBody_save_iff_cadence baseArgs 4 100 70 0 0 0 (by decide) (by decide)).1,
   (epochBody_save_iff_cadence baseArgs 4 100 70 0 0 0 (by decide) (by decide)).2.1 (by decide),
   (epochBody_save_iff_cadence baseArgs 4 100 70 0 0 0 (by decide) (by decide)).2.2⟩

/-! ## C4 — evaluation gap handling -/

/-- C4: with evaluation disabled, `dataset_val` is `None` (line 51) but the
`DataLoader` built at line 68 wraps it unconditionally, so the line-213
guard `data_loader_val is not None` still enters the evaluation branch;
iterating a loader over `None` raises `TypeError`, and no log entry — in
particular no entry omitting the test metrics — is ever appended. -/
theorem epochBody_disable_eval_crashes :
    (dataLoaderVal argsNoEval).isSome = true
    ∧ datasetValIsNone argsNoEval = true
    ∧ (epochBody argsNoEval 0 100 70 0 0 0).outcome = .err .typeErrorNoneLen
    ∧ ((epochBody argsNoEval 0 100 70 0 0 0).trace.filter Action.isAppendLog) = []
    ∧ Action.evaluate .primary ∈ (epochBody argsNoEval 0 100 70 0 0 0).trace := by
  decide

/-! ## C8 — foreign weight loading -/

theorem lookupKey_eraseKey_self (k : String) (m : Table) :
    lookupKey k (eraseKey k m) = none := by
  induction m with
  | nil => rfl
  | cons p t ih =>
    by_cases h : p.1 = k
    · simpa [eraseKey, h] using ih
    · simpa [eraseKey, lookupKey, h] using ih

theorem lookupKey_eraseKey_ne (k1 k2 : String) (h : k1 ≠ k2) (m : Table) :
    lookupKey k1 (eraseKey k2 m) = lookupKey k1 m := by
  have h2 : k2 ≠ k1 := Ne.symm h
  induction m with
  | nil => rfl
  | cons p t ih =>
    by_cases hp : p.1 = k2
    · have hne : ¬ p.1 = k1 := by rw [hp]; exact h2
      simp [eraseKey, lookupKey, hp, hne, h2, ih]
    · simp [eraseKey, lookupKey, hp, h, h2, ih]

theorem lookupKey_stripHeadKey_ne (sd acc : Table) (k1 k2 : String) (h : k1 ≠ k2) :
    lookupKey k1 (stripHeadKey sd acc k2) = lookupKey k1 acc := by
  unfold stripHeadKey
  cases hacc : lookupKey k2 acc with
  | none => rfl
  | some t =>
    cases hsd : lookupKey k2 sd with
    | none => rfl
    | some s =>
      by_cases hsh : t.shape ≠ s.shape
      · simp [hsh, lookupKey_eraseKey_ne k1 k2 h acc]
      · simp [hsh]

theorem lookupKey_stripHeadKey_dropped (sd acc : Table) (k : String) (t s : Tensor)
    (hacc : lookupKey k acc = some t) (hsd : lookupKey k sd = some s)
    (hsh : t.shape ≠ s.shape) :
    lookupKey k (stripHeadKey sd acc k) = none := by
  unfold stripHeadKey
  simp [hacc, hsd, hsh, lookupKey_eraseKey_self]

theorem lookupKey_stripHead_dropped (sd cm : Table) (k : String) (t s : Tensor)
    (hk : k ∈ headKeys) (hcm : lookupKey k cm = some t) (hsd : lookupKey k sd = some s)
    (hsh : t.shape ≠ s.shape) :
    lookupKey k (stripHead sd cm) = none := by
  have hne : ("head.weight" : String) ≠ "head.bias" := by decide
  rcases show k = "head.weight" ∨ k = "head.bias" by simpa [headKeys] using hk with h | h
  · subst h
    show lookupKey _ (stripHeadKey sd (stripHeadKey sd cm "head.weight") "head.bias") = none
    rw [lookupKey_stripHeadKey_ne _ _ _ _ hne]
    exact lookupKey_stripHeadKey_dropped sd cm _ t s hcm hsd hsh
  · subst h
    show lookupKey _ (stripHeadKey sd (stripHeadKey sd cm "head.weight") "head.bias") = none
    have hcm2 : lookupKey "head.bias" (stripHeadKey sd cm "head.weight") = some t := by
      rw [lookupKey_stripHeadKey_ne _ _ _ _ (fun hx => hne hx.symm)]
      exact hcm
    exact lookupKey_stripHeadKey_dropped sd _ _ t s hcm2 hsd hsh

theorem lookupKey_applyWeights (pfx k : String) (cm : Table) (sd : Table) (v : Tensor)
    (h : lookupKey k sd = some v) :
    lookupKey k (applyWeights pfx sd cm) = some ((lookupKey (pfx ++ k) cm).getD v) := by
  induction sd with
  | nil => simp [lookupKey] at h
  | cons p t ih =>
    by_cases hp : p.1 = k
    · have hv : p.2 = v := by simpa [lookupKey, hp] using h
      cases hcm : lookupKey (pfx ++ k) cm with
      | none => simp [applyWeights, lookupKey, hp, hcm, hv]
      | some t0 => simp [applyWeights, lookupKey, hp, hcm]
    · have ht : lookupKey k t = some v := by simpa [lookupKey, hp] using h
      cases hcm : lookupKey (pfx ++ p.1) cm with
      | none =>
        simpa [applyWeights, lookupKey, hp, hcm] using ih ht
      | some t0 =>
        simpa [applyWeights, lookupKey, hp, hcm] using ih ht

theorem mem_of_lookupKey (k : String) (m : Table) (v : Tensor)
    (h : lookupKey k m = some v) : (k, v) ∈ m := by
  induction m with
  | nil => simp [lookupKey] at h
  | cons p t ih =>
    obtain ⟨p1, p2⟩ := p
    by_cases hp : p1 = k
    · have hv : p2 = v := by simpa [lookupKey, hp] using h
      rw [hp, hv]
      exact List.mem_cons_self _ _
    · have ht : lookupKey k t = some v := by simpa [lookupKey, hp] using h
      exact List.mem_cons_of_mem _ (ih ht)

theorem load_state_dict_incompatible (pfx : String) (sd cm : Table) (k : String) (v t : Tensor)
    (hsd : lookupKey k sd = some v) (hcm : lookupKey (pfx ++ k) cm = some t)
    (hsh : t.shape ≠ v.shape) :
    load_state_dict pfx sd cm = .err .incompatibleCheckpoint := by
  unfold load_state_dict
  rw [if_neg]
  intro hall
  have hmem := mem_of_lookupKey k sd v hsd
  have hp := (List.all_eq_true.1 hall) (k, v) hmem
  rw [show ((k, v) : String × Tensor).1 = k from rfl] at hp
  rw [hcm] at hp
  exact hsh (of_decide_eq_true hp)

theorem load_state_dict_ok_lookup (pfx : String) (sd cm out : Table) (k : String) (v : Tensor)
    (hok : load_state_dict pfx sd cm = .ok out) (hsd : lookupKey k sd = some v) :
    lookupKey k out = some ((lookupKey (pfx ++ k) cm).getD v) := by
  unfold load_state_dict at hok
  by_cases hall : sd.all (fun p =>
      match lookupKey (pfx ++ p.1) cm with
      | some t => decide (t.shape = p.2.shape)
      | none => true) = true
  · rw [if_pos hall] at hok
    have hout : applyWeights pfx sd cm = out := by
      injection hok
    rw [← hout]
    exact lookupKey_applyWeights pfx k cm sd v hsd
  · rw [if_neg hall] at hok
    exact absurd hok (by simp)

theorem findCheckpointModel_fallback (keys : List String) (ckpt : Ckpt)
    (h : ∀ k ∈ keys, lookupKey k ckpt = none) :
    findCheckpointModel keys ckpt
      = ckpt.filterMap (fun p => match p.2 with
          | .tensor t => some (p.1, t) | .table _ => none) := by
  unfold findCheckpointModel
  have hfind : keys.find? (fun k => (lookupKey k ckpt).isSome) = none :=
    List.find?_eq_none.2 (fun k hk => by simp [h k hk])
  rw [hfind]

theorem findCheckpointModel_first (ks1 ks2 : List String) (k : String) (ckpt : Ckpt) (m : Table)
    (h1 : ∀ x ∈ ks1, lookupKey x ckpt = none) (h2 : lookupKey k ckpt = some (.table m)) :
    findCheckpointModel (ks1 ++ k :: ks2) ckpt = m := by
  unfold findCheckpointModel
  have hfind : (ks1 ++ k :: ks2).find? (fun x => (lookupKey x ckpt).isSome) = some k := by
    induction ks1 with
    | nil => simp [List.find?_cons_of_pos, h2]
    | cons a t ih =>
      rw [List.cons_append, List.find?_cons_of_neg]
      · exact ih (fun x hx => h1 x (List.mem_cons_of_mem a hx))
      · simp [h1 a (List.mem_cons_self a t)]
  simp [hfind, h2]

/-- C8: the nested weights table is selected by trying the configured
preferred keys in order (first match wins; lines 95-99), falling back to
treating the whole artifact as the table (lines 100-101); classifier-head
entries whose shape differs from the current model's head are dropped
(lines 102-105); a strict-shape mismatch on any surviving (non-head)
matching key is the hard failure `IncompatibleCheckpoint`; on a successful
load the current head stays at its initialized value while every other
matching key is transferred (line 106); in the §8 scenario a foreign head
of shape `[1000]` against a current head of shape `[200]` is dropped and
all other matching keys are transferred. -/
theorem loadForeignWeights_contract :
    (∀ (keys : List String) (ckpt : Ckpt),
        (∀ k ∈ keys, lookupKey k ckpt = none) →
        findCheckpointModel keys ckpt
          = ckpt.filterMap (fun p => match p.2 with
              | .tensor t => some (p.1, t) | .table _ => none))
    ∧ (∀ (ks1 ks2 : List String) (k : String) (ckpt : Ckpt) (m : Table),
        (∀ x ∈ ks1, lookupKey x ckpt = none) → lookupKey k ckpt = some (.table m) →
        findCheckpointModel (ks1 ++ k :: ks2) ckpt = m)
    ∧ (∀ (sd cm : Table) (k : String) (t s : Tensor),
        k ∈ headKeys → lookupKey k cm = some t → lookupKey k sd = some s →
        t.shape ≠ s.shape → lookupKey k (stripHead sd cm) = none)
    ∧ (∀ (pfx : String) (sd cm : Table) (k : String) (v t : Tensor),
        lookupKey k sd = some v → lookupKey (pfx ++ k) cm = some t → t.shape ≠ v.shape →
        load_state_dict pfx sd cm = .err .incompatibleCheckpoint)
    ∧ (∀ (pfx : String) (sd cm out : Table) (k : String) (v : Tensor),
        load_state_dict pfx sd cm = .ok out → lookupKey k sd = some v →
        lookupKey k out = some ((lookupKey (pfx ++ k) cm).getD v))
    ∧ (∀ (keys : List String) (k : String) (sd out : Table) (ckpt : Ckpt) (s t : Tensor),
        k ∈ headKeys → lookupKey k sd = some s →
        lookupKey k (findCheckpointModel keys ckpt) = some t → t.shape ≠ s.shape →
        loadForeignWeights keys "" sd ckpt = .ok out →
        lookupKey k out = some s)
    ∧ (∀ (keys : List String) (k : String) (sd out : Table) (ckpt : Ckpt) (v t : Tensor),
        lookupKey k sd = some v →
        lookupKey k (stripHead sd (findCheckpointModel keys ckpt)) = some t →
        loadForeignWeights keys "" sd ckpt = .ok out →
        lookupKey k out = some t)
    ∧ loadForeignWeights ["model", "module"] "" sdScenario ckptScenario = .ok outScenario := by
  refine ⟨findCheckpointModel_fallback, findCheckpointModel_first,
    lookupKey_stripHead_dropped, load_state_dict_incompatible, load_state_dict_ok_lookup,
    ?_, ?_, by decide⟩
  · intro keys k sd out ckpt s t hk hsd hfound hsh hok
    unfold loadForeignWeights at hok
    have hdrop :=
      lookupKey_stripHead_dropped sd (findCheckpointModel keys ckpt) k t s hk hfound hsd hsh
    have h5 := load_state_dict_ok_lookup "" sd _ out k s hok hsd
    have hek : ("" : String) ++ k = k := by simp
    rw [hek, hdrop] at h5
    simpa using h5
  · intro keys k sd out ckpt v t hsd hkept hok
    unfold loadForeignWeights at hok
    have h5 := load_state_dict_ok_lookup "" sd _ out k v hok hsd
    have hek : ("" : String) ++ k = k := by simp
    rw [hek, hkept] at h5
    simpa using h5

/-- Witness for C8: the hard-failure conjunct at a concrete non-head shape
mismatch, and the head-preservation and transfer conjuncts evaluated on the
concrete §8 scenario tables. -/
theorem loadForeignWeights_contract_witness :
    (lookupKey "blocks.0.weight" sdScenario = some ⟨[7], 11⟩
      ∧ lookupKey ("" ++ "blocks.0.weight") cmBadShape = some ⟨[9], 21⟩
      ∧ (⟨[9], 21⟩ : Tensor).shape ≠ (⟨[7], 11⟩ : Tensor).shape
      ∧ load_state_dict "" sdScenario cmBadShape = .err .incompatibleCheckpoint)
    ∧ (("head.bias" : String) ∈ headKeys
      ∧ lookupKey "head.bias" sdScenario = some ⟨[200], 10⟩
      ∧ lookupKey "head.bias" (findCheckpointModel ["model", "module"] ckptScenario)
          = some ⟨[1000], 20⟩
      ∧ ([1000] : List Nat) ≠ [200]
      ∧ loadForeignWeights ["model", "module"] "" sdScenario ckptScenario = .ok outScenario
      ∧ lookupKey "head.bias" outScenario = some ⟨[200], 10⟩)
    ∧ (lookupKey "blocks.0.weight" sdScenario = some ⟨[7], 11⟩
      ∧ lookupKey "blocks.0.weight"
          (stripHead sdScenario (findCheckpointModel ["model", "module"] ckptScenario))
          = some ⟨[7], 21⟩
      ∧ lookupKey "blocks.0.weight" outScenario = some ⟨[7], 21⟩) :=
  ⟨⟨by decide, by decide, by decide,
    loadForeignWeights_contract.2.2.2.1 "" sdScenario cmBadShape "blocks.0.weight"
      ⟨[7], 11⟩ ⟨[9], 21⟩ (by decide) (by decide) (by decide)⟩,
   ⟨by decide, by decide, by decide, by decide, by decide,
    loadForeignWeights_contract.2.2.2.2.2.1 ["model", "module"] "head.bias" sdScenario
      outScenario ckptScenario ⟨[200], 10⟩ ⟨[1000], 20⟩ (by decide) (by decide) (by decide)
      (by decide) (by decide)⟩,
   ⟨by decide, by decide,
    loadForeignWeights_contract.2.2.2.2.2.2.1 ["model", "module"] "blocks.0.weight" sdScenario
      outScenario ckptScenario ⟨[7], 11⟩ ⟨[7], 21⟩ (by decide) (by decide) (by decide)⟩⟩

/-! ## C9 — schedule generator -/

theorem warmupVal_mono (base : ℝ) (W i : Nat) (hb : 0 ≤ base) (hi : i + 1 < W) :
    warmupVal base W i ≤ warmupVal base W (i + 1) := by
  have hW : ¬ W ≤ 1 := by omega
  unfold warmupVal
  rw [if_neg hW, if_neg hW]
  have h2 : (2:ℝ) ≤ (W:ℝ) := by exact_mod_cast (by omega : 2 ≤ W)
  have hden : (0:ℝ) < (W:ℝ) - 1 := by linarith
  rw [div_le_div_iff_of_pos_right hden]
  have hcast : ((i+1:ℕ):ℝ) = (i:ℝ) + 1 := by push_cast; ring
  rw [hcast]
  nlinarith [Nat.cast_nonneg (α := ℝ) i]

theorem cosineVal_antitone (base endv : ℝ) (M j : Nat) (hbe : endv ≤ base) (hj : j + 1 ≤ M) :
    cosineVal base endv M (j + 1) ≤ cosineVal base endv M j := by
  have hM : 0 < M := by omega
  have hMR : (0:ℝ) < (M:ℝ) := by exact_mod_cast hM
  have hjR : ((j+1:ℕ):ℝ) ≤ (M:ℝ) := by exact_mod_cast hj
  have hcos : Real.cos (Real.pi * ((j+1:ℕ):ℝ) / M) ≤ Real.cos (Real.pi * (j:ℝ) / M) := by
    apply Real.cos_le_cos_of_nonneg_of_le_pi
    · positivity
    · rw [div_le_iff₀ hMR]
      exact mul_le_mul_of_nonneg_left hjR Real.pi_pos.le
    · rw [div_le_div_iff_of_pos_right hMR]
      apply mul_le_mul_of_nonneg_left ?_ Real.pi_pos.le
      push_cast
      linarith
  unfold cosineVal
  nlinarith [mul_le_mul_of_nonneg_left hcos (by linarith : (0:ℝ) ≤ base - endv)]

theorem one_sub_cos_le_half_sq (x : ℝ) (hx : 0 ≤ x) (hxpi : x ≤ Real.pi) :
    1 - Real.cos x ≤ x ^ 2 / 2 := by
  have hx2 : 2 * (x / 2) = x := by ring
  have hcos2 := Real.cos_two_mul' (x / 2)
  rw [hx2] at hcos2
  have hcsq := Real.cos_sq' (x / 2)
  have hrepr : Real.cos x = 1 - 2 * Real.sin (x / 2) ^ 2 := by
    rw [hcos2, hcsq]; ring
  have hsin_nonneg : 0 ≤ Real.sin (x / 2) := by
    apply Real.sin_nonneg_of_nonneg_of_le_pi
    · linarith
    · nlinarith [Real.pi_pos]
  have hsin_le : Real.sin (x / 2) ≤ x / 2 := Real.sin_le (by linarith)
  have hsq : Real.sin (x / 2) ^ 2 ≤ (x / 2) ^ 2 := pow_le_pow_left₀ hsin_nonneg hsin_le 2
  rw [hrepr]
  nlinarith [hsq]

theorem cosineVal_last (base endv : ℝ) (M : Nat) (hM : 1 ≤ M) (hbe : endv ≤ base) :
    endv ≤ cosineVal base endv M (M - 1)
    ∧ cosineVal base endv M (M - 1) ≤ endv + (base - endv) * (Real.pi / M) ^ 2 / 4 := by
  have hMR : (1:ℝ) ≤ (M:ℝ) := by exact_mod_cast hM
  have hM0 : (0:ℝ) < (M:ℝ) := by linarith
  have hcast : ((M - 1 : ℕ) : ℝ) = (M:ℝ) - 1 := by
    push_cast [hM]
    ring
  have harg : Real.pi * ((M - 1 : ℕ) : ℝ) / M = Real.pi - Real.pi / M := by
    rw [hcast]
    field_simp
    ring
  have hcos : Real.cos (Real.pi * ((M - 1 : ℕ) : ℝ) / M) = - Real.cos (Real.pi / M) := by
    rw [harg, Real.cos_pi_sub]
  have hbound : 1 - Real.cos (Real.pi / M) ≤ (Real.pi / M) ^ 2 / 2 := by
    apply one_sub_cos_le_half_sq
    · positivity
    · exact div_le_self Real.pi_pos.le hMR
  unfold cosineVal
  rw [hcos]
  constructor
  · nlinarith [Real.cos_le_one (Real.pi / M)]
  · nlinarith [mul_le_mul_of_nonneg_left hbound (by linarith : (0:ℝ) ≤ base - endv)]

theorem schedVal_warmup_mono (base endv : ℝ) (epochs steps we ws i : Nat)
    (hb : 0 ≤ base) (hi : i + 1 < warmupLen steps we ws) :
    schedVal base endv epochs steps we ws i ≤ schedVal base endv epochs steps we ws (i + 1) := by
  have hiW : i < warmupLen steps we ws := by omega
  simp only [schedVal]
  rw [if_pos hiW, if_pos hi]
  exact warmupVal_mono base _ i hb hi

theorem schedVal_no_warmup_antitone (base endv : ℝ) (epochs steps i : Nat)
    (hlt : endv < base) (hi : i + 1 < epochs * steps) :
    schedVal base endv epochs steps 0 0 (i + 1) ≤ schedVal base endv epochs steps 0 0 i := by
  have hW : warmupLen steps 0 0 = 0 := by simp [warmupLen]
  simp only [schedVal, hW]
  rw [if_neg (by omega), if_neg (by omega)]
  simp only [Nat.sub_zero]
  exact cosineVal_antitone base endv _ i hlt.le (by omega)

theorem schedVal_starts_zero (base endv : ℝ) (epochs steps we ws : Nat)
    (hW : 0 < warmupLen steps we ws) :
    schedVal base endv epochs steps we ws 0 = 0 := by
  simp only [schedVal]
  rw [if_pos hW]
  unfold warmupVal
  by_cases h1 : warmupLen steps we ws ≤ 1
  · rw [if_pos h1]
  · rw [if_neg h1]
    simp

theorem schedVal_last (base endv : ℝ) (epochs steps we ws : Nat)
    (hWlt : warmupLen steps we ws < epochs * steps) (hbe : endv ≤ base) :
    endv ≤ schedVal base endv epochs steps we ws (epochs * steps - 1)
    ∧ schedVal base endv epochs steps we ws (epochs * steps - 1)
        ≤ endv + (base - endv)
            * (Real.pi / ((epochs * steps - warmupLen steps we ws : ℕ) : ℝ)) ^ 2 / 4 := by
  have hiW : ¬ (epochs * steps - 1 < warmupLen steps we ws) := by omega
  simp only [schedVal]
  rw [if_neg hiW]
  have hj : epochs * steps - 1 - warmupLen steps we ws
      = (epochs * steps - warmupLen steps we ws) - 1 := by omega
  rw [hj]
  exact cosineVal_last base endv _ (by omega) hbe

theorem scenario_s99 : schedVal (1/10) 0 10 100 1 0 99 = 1/10 := by
  have hW : warmupLen 100 1 0 = 100 := by decide
  simp only [schedVal, hW]
  rw [if_pos (by norm_num)]
  unfold warmupVal
  rw [if_neg (by norm_num)]
  norm_num

theorem scenario_s999_upper : schedVal (1/10) 0 10 100 1 0 999 ≤ 1/1000 := by
  have h := (schedVal_last (1/10) 0 10 100 1 0 (by decide) (by norm_num)).2
  have hcast : ((10 * 100 - warmupLen 100 1 0 : ℕ) : ℝ) = 900 := by norm_num [warmupLen]
  rw [hcast] at h
  have hnum : (0:ℝ) + (1/10 - 0) * (Real.pi / 900) ^ 2 / 4 ≤ 1/1000 := by
    nlinarith [Real.pi_lt_d2, Real.pi_pos]
  calc schedVal (1/10) 0 10 100 1 0 (10 * 100 - 1) ≤ _ := h
    _ ≤ 1/1000 := hnum

/-- C9: the generated schedule has length `total_epochs × steps_per_epoch`;
it is monotonically non-decreasing during warmup; with no warmup and
`end_value < base_value` it is monotonically non-increasing; it starts at
`0` whenever a warmup phase exists; its final entry lies within
`(base-end)·(π/M)²/4` of `end_value` (the floating-point tolerance, where
`M` is the number of cosine steps); and in the §8 scenario
(`total_epochs=10, steps_per_epoch=100, warmup_epochs=1, base=0.1, end=0.0,
warmup_steps=0`) the length is 1000, the value at step 0 is 0.0, at step 99
exactly 0.1, and at step 999 within `[0, 0.001]` of 0.0. -/
theorem cosine_scheduler_contract :
    (∀ (base endv : ℝ) (epochs steps we ws : Nat),
        (cosine_scheduler base endv epochs steps we ws).length = epochs * steps)
    ∧ (∀ (base endv : ℝ) (epochs steps we ws i : Nat), 0 ≤ base →
        i + 1 < warmupLen steps we ws →
        schedVal base endv epochs steps we ws i ≤ schedVal base endv epochs steps we ws (i + 1))
    ∧ (∀ (base endv : ℝ) (epochs steps i : Nat), endv < base → i + 1 < epochs * steps →
        schedVal base endv epochs steps 0 0 (i + 1) ≤ schedVal base endv epochs steps 0 0 i)
    ∧ (∀ (base endv : ℝ) (epochs steps we ws : Nat), 0 < warmupLen steps we ws →
        schedVal base endv epochs steps we ws 0 = 0)
    ∧ (∀ (base endv : ℝ) (epochs steps we ws : Nat),
        warmupLen steps we ws < epochs * steps → endv ≤ base →
        endv ≤ schedVal base endv epochs steps we ws (epochs * steps - 1)
        ∧ schedVal base endv epochs steps we ws (epochs * steps - 1)
            ≤ endv + (base - endv)
                * (Real.pi / ((epochs * steps - warmupLen steps we ws : ℕ) : ℝ)) ^ 2 / 4)
    ∧ ((cosine_scheduler (1/10) 0 10 100 1 0).length = 1000
        ∧ schedVal (1/10) 0 10 100 1 0 0 = 0
        ∧ schedVal (1/10) 0 10 100 1 0 99 = 1/10
        ∧ 0 ≤ schedVal (1/10) 0 10 100 1 0 999
        ∧ schedVal (1/10) 0 10 100 1 0 999 ≤ 1/1000) := by
  refine ⟨?_, schedVal_warmup_mono, schedVal_no_warmup_antitone, schedVal_starts_zero,
    schedVal_last, ?_, schedVal_starts_zero (1/10) 0 10 100 1 0 (by decide), scenario_s99,
    ?_, scenario_s999_upper⟩
  · intro base endv epochs steps we ws
    rw [cosine_scheduler, List.length_ofFn]
  · rw [cosine_scheduler, List.length_ofFn]
  · have h := (schedVal_last (1/10) 0 10 100 1 0 (by decide) (by norm_num)).1
    simpa using h

/-- Witness for C9: the warmup-start and warmup-monotonicity conjuncts at
the scenario configuration. -/
theorem cosine_scheduler_contract_witness :
    (0 < warmupLen 100 1 0 ∧ schedVal (1/10) 0 10 100 1 0 0 = 0)
    ∧ ((0:ℝ) ≤ 1/10 ∧ 1 + 1 < warmupLen 100 1 0
        ∧ schedVal (1/10) 0 10 100 1 0 1 ≤ schedVal (1/10) 0 10 100 1 0 2) :=
  ⟨⟨by decide, cosine_scheduler_contract.2.2.2.1 (1/10) 0 10 100 1 0 (by decide)⟩,
   ⟨by norm_num, by decide,
    cosine_scheduler_contract.2.1 (1/10) 0 10 100 1 0 1 (by norm_num) (by decide)⟩⟩

end MFFNet
